import Mathlib

/-!
Verification of the `mjpeg` AVI writer (src/mjpeg.go) against its
natural-language specification.

The Go code is shallowly embedded: the avi file is a `List Nat` of bytes,
the `*os.File` write/seek syscalls become explicit state updates, and I/O
failure is modelled by a fault-injection index `failAt`: the syscall whose
running index (`opCount`) equals `failAt` fails with a generic error, all
others succeed.  Machine integers (`int32`, `uint32`, `int64`) are `Int`
with explicit wrapping (`wrap32`, `emod 2^32`) exactly where the Go code
converts.  Fallible operations (Go panics: slice index out of range,
integer division by zero) return `Option`.

`AddJpeg` and `Close` are TODO stubs in this revision of the source; where
a claim depends on them they are modelled from the spec (see the doc
comments marked "Modelled from the spec").
-/

set_option maxRecDepth 40000

namespace Mjpeg

/-! ## Byte-level helpers -/

/-- Little-endian 4-byte encoding of a natural number below 2^32
(`binary.LittleEndian.PutUint32`). -/
def le32n (v : Nat) : List Nat :=
  [v % 256, v / 256 % 256, v / 65536 % 256, v / 16777216 % 256]

/-- Little-endian 2-byte encoding (`binary.LittleEndian.PutUint16`). -/
def le16n (v : Nat) : List Nat := [v % 256, v / 256 % 256]

/-- Go's conversion to `int32`: wrap into `[-2^31, 2^31)`. -/
def wrap32 (n : Int) : Int := (n + 2147483648) % 4294967296 - 2147483648

/-- Bytes written for an `int32` value `n`: `PutUint32(buf, uint32(n))`. -/
def le32i (n : Int) : List Nat := le32n ((n % 4294967296).toNat)

/-- Bytes written for an `int16` value `n`: `PutUint16(buf, uint16(n))`. -/
def le16i (n : Int) : List Nat := le16n ((n % 65536).toNat)

/-- Overwrite the bytes of `f` at position `p` with `bs`, extending the file
(zero-filling any hole, as the OS does for a sparse write past the end). -/
def writeBytesAt (f : List Nat) (p : Nat) (bs : List Nat) : List Nat :=
  if f.length ≤ p then f ++ List.replicate (p - f.length) 0 ++ bs
  else f.take p ++ bs ++ f.drop (p + bs.length)

/-- Read `n` bytes of `f` starting at position `i` (0 past the end). -/
def readBytes (f : List Nat) (i n : Nat) : List Nat :=
  (List.range n).map fun k => f.getD (i + k) 0

/-! ## Fixed byte strings used by the writer -/

def strRIFF : List Nat := [82, 73, 70, 70]
def strAVIsp : List Nat := [65, 86, 73, 32]
def strLIST : List Nat := [76, 73, 83, 84]
def strhdrl : List Nat := [104, 100, 114, 108]
def stravih : List Nat := [97, 118, 105, 104]
def strstrl : List Nat := [115, 116, 114, 108]
def strstrh : List Nat := [115, 116, 114, 104]
def strvids : List Nat := [118, 105, 100, 115]
def strMJPG : List Nat := [77, 74, 80, 71]
def strstrf : List Nat := [115, 116, 114, 102]
def strstrn : List Nat := [115, 116, 114, 110]
def strmovi : List Nat := [109, 111, 118, 105]
def str00dc : List Nat := [48, 48, 100, 99]
def stridx1 : List Nat := [105, 100, 120, 49]
def strAtSep : List Nat := [32, 97, 116, 32]

/-- Bytes of "Recorded with https://github.com/icza/mjpeg" (43 bytes). -/
def nameStem : List Nat := [82, 101, 99, 111, 114, 100, 101, 100, 32, 119, 105, 116, 104, 32, 104, 116, 116, 112, 115, 58, 47, 47, 103, 105, 116, 104, 117, 98, 46, 99, 111, 109, 47, 105, 99, 122, 97, 47, 109, 106, 112, 101, 103]

/-- A representative value of `time.Now().Format(...)`: "2026-01-01 00:00:00 UTC"
(23 bytes, giving an even-length base name). -/
def nowStrC : List Nat := [50, 48, 50, 54, 45, 48, 49, 45, 48, 49, 32, 48, 48, 58, 48, 48, 58, 48, 48, 32, 85, 84, 67]

/-- A representative timestamp with a 4-letter zone, "2026-06-01 00:00:00 CEST"
(24 bytes, giving an odd-length base name). -/
def nowStrC2 : List Nat := [50, 48, 50, 54, 45, 48, 54, 45, 48, 49, 32, 48, 48, 58, 48, 48, 58, 48, 48, 32, 67, 69, 83, 84]

/-- The 4 zero placeholder bytes (`var emptyInt = make([]byte, 4)`). -/
def emptyInt : List Nat := [0, 0, 0, 0]

/-- Generic I/O error value. -/
def ioErr : Nat := 1

/-! ## Writer state -/

/-- One record of the frame index (spec: IndexRecord). -/
structure IndexRec where
  tag : List Nat
  flags : Nat
  offset : Int
  size : Nat
deriving Repr, DecidableEq, Inhabited

/-- State of `aviWriter` (src/mjpeg.go:36) together with the avi file's
contents and write position and the fault-injection counter. -/
structure AviWriter where
  /-- width field of the struct -/
  width : Int
  /-- height field -/
  height : Int
  /-- fps field -/
  fps : Int
  /-- contents of the avi file -/
  file : List Nat
  /-- current write position in the avi file -/
  pos : Nat
  /-- `err` field: last write error, `none` for nil -/
  err : Option Nat
  /-- `lengthFields`: file positions of pending length fields (top at the end) -/
  lengthFields : List Nat
  /-- `framesCountFieldPos` -/
  framesCountFieldPos : Nat
  /-- `framesCountFieldPos2` -/
  framesCountFieldPos2 : Nat
  /-- `moviPos` -/
  moviPos : Nat
  /-- `frames`: number of frames written -/
  frames : Nat
  /-- contents of the index file (written by `writeIntToIdx`) -/
  idxFile : List Nat
  /-- current write position in the index file -/
  idxPos : Nat
  /-- Modelled from the spec: the IndexBuilder's accumulated records
  (the source's index bookkeeping lives in the TODO `AddJpeg`/`Close`). -/
  idxRecords : List IndexRec
  /-- fault injection: index of the one failing syscall, if any -/
  failAt : Option Nat
  /-- number of syscalls performed so far -/
  opCount : Nat
deriving Repr, DecidableEq, Inhabited

/-! ## Raw syscalls -/

/-- Does the next syscall succeed? -/
def sysOk (aw : AviWriter) : Bool := aw.failAt ≠ some aw.opCount

/-- One raw `Write`/`WriteString` syscall on the avi file; on success the
bytes land at the current position; either way `err` is assigned the
syscall's result. -/
def rawWrite (aw : AviWriter) (bs : List Nat) : AviWriter :=
  if sysOk aw then
    { aw with file := writeBytesAt aw.file aw.pos bs, pos := aw.pos + bs.length,
              err := none, opCount := aw.opCount + 1 }
  else
    { aw with err := some ioErr, opCount := aw.opCount + 1 }

/-- One raw absolute `Seek(p, 0)` syscall on the avi file. -/
def rawSeek (aw : AviWriter) (p : Nat) : AviWriter :=
  if sysOk aw then
    { aw with pos := p, err := none, opCount := aw.opCount + 1 }
  else
    { aw with err := some ioErr, opCount := aw.opCount + 1 }

/-- One raw `Write` syscall on the index file. -/
def rawWriteIdx (aw : AviWriter) (bs : List Nat) : AviWriter :=
  if sysOk aw then
    { aw with idxFile := writeBytesAt aw.idxFile aw.idxPos bs,
              idxPos := aw.idxPos + bs.length, err := none, opCount := aw.opCount + 1 }
  else
    { aw with err := some ioErr, opCount := aw.opCount + 1 }

/-! ## aviWriter methods (src/mjpeg.go:211-285) -/

/-- Translation of `currentPos` (src/mjpeg.go:282): `pos, aw.err = aw.avif.Seek(0, 1)`.
Note there is no guard on `aw.err`: the seek is performed and its result
overwrites `aw.err` unconditionally. -/
def currentPos (aw : AviWriter) : Nat × AviWriter :=
  if sysOk aw then (aw.pos, { aw with err := none, opCount := aw.opCount + 1 })
  else (0, { aw with err := some ioErr, opCount := aw.opCount + 1 })

/-- Translation of `writeStr` (src/mjpeg.go:211). -/
def writeStr (aw : AviWriter) (s : List Nat) : AviWriter :=
  if aw.err.isSome then aw else rawWrite aw s

/-- Translation of `writeInt32` (src/mjpeg.go:219): writes `uint32(n)` little-endian. -/
def writeInt32 (aw : AviWriter) (n : Int) : AviWriter :=
  if aw.err.isSome then aw else rawWrite aw (le32i n)

/-- Translation of `writeIntToIdx` (src/mjpeg.go:228). -/
def writeIntToIdx (aw : AviWriter) (n : Int) : AviWriter :=
  if aw.err.isSome then aw else rawWriteIdx aw (le32i n)

/-- Translation of `writeInt16` (src/mjpeg.go:237): writes `uint16(n)` little-endian. -/
def writeInt16 (aw : AviWriter) (n : Int) : AviWriter :=
  if aw.err.isSome then aw else rawWrite aw (le16i n)

/-- Translation of `writeLengthField` (src/mjpeg.go:247): record the current position on
the stack and write 4 placeholder bytes. -/
def writeLengthField (aw : AviWriter) : AviWriter :=
  if aw.err.isSome then aw
  else
    let (pos, aw) := currentPos aw
    if aw.err.isSome then aw
    else
      let aw := { aw with lengthFields := aw.lengthFields ++ [pos] }
      rawWrite aw emptyInt

/-- Translation of `finalizeLengthField` (src/mjpeg.go:264).  Faithful to the source:
there is no guard on `aw.err` (the tell and seek run, and overwrite the
recorded error, even when an error is already recorded); the value written
at the popped position `p` is `int32(pos - 4)` where `pos` is the close
offset (the source does not subtract `p`); if `pos` is odd the writer seeks
to `pos + 1` without writing a pad byte.  `none` models the Go panic
(index out of range) when the stack is empty. -/
def finalizeLengthField (aw : AviWriter) : Option AviWriter :=
  let (pos, aw) := currentPos aw
  match aw.lengthFields.getLast? with
  | none => none
  | some p =>
    let aw := rawSeek aw p
    let aw := { aw with lengthFields := aw.lengthFields.dropLast }
    if aw.err.isSome then some aw
    else
      let aw := writeInt32 aw (wrap32 ((pos : Int) - 4))
      let pos := if pos % 2 = 1 then pos + 1 else pos
      some (rawSeek aw pos)

/-! ## Construction (src/mjpeg.go:74-208) -/

/-- The stream-name string (src/mjpeg.go:185-192): the fixed text plus the
formatted current time, then a terminating 0 preceded by a padding space
when the base length is even, so that the total length is always even. -/
def mkName (nowStr : List Nat) : List Nat :=
  let name := nameStem ++ strAtSep ++ nowStr
  if name.length % 2 = 0 then name ++ [32, 0] else name ++ [0]

/-- Result of `New`: the returned writer (or `none` on an error return),
the returned error, and whether the avi / index files still exist on disk
after `New` returns (the deferred handler at src/mjpeg.go:86-103 closes and
removes both files when `New` returns an error). -/
structure NewRes where
  result : Option AviWriter
  err : Option Nat
  aviExists : Bool
  idxExists : Bool
deriving Repr, DecidableEq, Inhabited

/-- Lines 118-129 of `New`: the RIFF/AVI/hdrl tags and the first half of
the avih record, up to the point where position A is recorded. -/
def newStage1 (fps : Int) (aw : AviWriter) : AviWriter :=
  let aw := writeStr aw strRIFF              -- RIFF type
  let aw := writeLengthField aw              -- File length (nesting level 0)
  let aw := writeStr aw strAVIsp             -- AVI signature
  let aw := writeStr aw strLIST              -- LIST chunk: data encoding
  let aw := writeLengthField aw              -- Chunk length (nesting level 1)
  let aw := writeStr aw strhdrl
  let aw := writeStr aw stravih
  let aw := writeInt32 aw 56                 -- 0x38
  let aw := writeInt32 aw (Int.tdiv 1000000 fps) -- frame delay in microsec
  let aw := writeInt32 aw 0                  -- dwMaxBytesPerSec
  let aw := writeInt32 aw 0                  -- reserved
  let aw := writeInt32 aw 16                 -- dwFlags: 0x10 AVIF_HASINDEX
  aw

/-- Lines 130-141 of `New`: record position A (the avih frame-count field),
then the rest of the avih record. -/
def newStage2 (width height : Int) (aw : AviWriter) : AviWriter :=
  let (pA, aw) := currentPos aw
  let aw := { aw with framesCountFieldPos := pA }
  let aw := writeInt32 aw 0                  -- number of frames
  let aw := writeInt32 aw 0                  -- initial frame
  let aw := writeInt32 aw 1                  -- number of streams
  let aw := writeInt32 aw 0                  -- dwSuggestedBufferSize
  let aw := writeInt32 aw width
  let aw := writeInt32 aw height
  let aw := writeInt32 aw 0                  -- reserved x4
  let aw := writeInt32 aw 0
  let aw := writeInt32 aw 0
  let aw := writeInt32 aw 0
  aw

/-- Lines 143-155 of `New`: the strl list and the first half of the strh
record, up to the point where position B is recorded. -/
def newStage3 (fps : Int) (aw : AviWriter) : AviWriter :=
  let aw := writeStr aw strLIST
  let aw := writeLengthField aw              -- Chunk size (nesting level 2)
  let aw := writeStr aw strstrl
  let aw := writeStr aw strstrh
  let aw := writeInt32 aw 56                 -- length of the strh sub-chunk
  let aw := writeStr aw strvids
  let aw := writeStr aw strMJPG
  let aw := writeInt32 aw 0                  -- dwFlags
  let aw := writeInt32 aw 0                  -- wPriority, wLanguage
  let aw := writeInt32 aw 0                  -- dwInitialFrames
  let aw := writeInt32 aw 1                  -- dwScale
  let aw := writeInt32 aw fps                -- dwRate
  let aw := writeInt32 aw 0                  -- usually zero
  aw

/-- Lines 156-164 of `New`: record position B (the strh frame-count field),
then the rest of the strh record. -/
def newStage4 (aw : AviWriter) : AviWriter :=
  let (pB, aw) := currentPos aw
  let aw := { aw with framesCountFieldPos2 := pB }
  let aw := writeInt32 aw 0                  -- dwLength
  let aw := writeInt32 aw 0                  -- dwSuggestedBufferSize
  let aw := writeInt32 aw (-1)               -- dwQuality
  let aw := writeInt32 aw 0                  -- dwSampleSize
  let aw := writeInt16 aw 0                  -- rcFrame left
  let aw := writeInt16 aw 0                  -- top
  let aw := writeInt16 aw 0                  -- right
  let aw := writeInt16 aw 0                  -- bottom
  aw

/-- Lines 166-178 of `New`: the strf (stream format) record. -/
def newStage5 (width height : Int) (aw : AviWriter) : AviWriter :=
  let aw := writeStr aw strstrf              -- stream format chunk
  let aw := writeLengthField aw              -- Chunk size (nesting level 3)
  let aw := writeInt32 aw 40                 -- biSize
  let aw := writeInt32 aw width              -- biWidth
  let aw := writeInt32 aw height             -- biHeight
  let aw := writeInt16 aw 1                  -- biPlanes
  let aw := writeInt16 aw 24                 -- biBitCount
  let aw := writeStr aw strMJPG              -- biCompression
  let aw := writeInt32 aw (wrap32 (wrap32 (width * height) * 3)) -- biSizeImage
  let aw := writeInt32 aw 0                  -- biXPelsPerMeter
  let aw := writeInt32 aw 0                  -- biYPelsPerMeter
  let aw := writeInt32 aw 0                  -- biClrUsed
  let aw := writeInt32 aw 0                  -- biClrImportant
  aw

/-- Lines 184-194 of `New`: the strn (stream name) record. -/
def newStage6 (nowStr : List Nat) (aw : AviWriter) : AviWriter :=
  let aw := writeStr aw strstrn
  let name := mkName nowStr
  let aw := writeInt32 aw (wrap32 (name.length : Int)) -- length of the strn sub-chunk
  let aw := writeStr aw name
  aw

/-- Lines 198-201 of `New`: the data LIST chunk (length field left open) and
the movi signature, with the movi position recorded. -/
def newStage7 (aw : AviWriter) : AviWriter :=
  let aw := writeStr aw strLIST              -- second LIST chunk: the data
  let aw := writeLengthField aw              -- Chunk length (nesting level 1)
  let (pM, aw) := currentPos aw
  let aw := { aw with moviPos := pM }
  let aw := writeStr aw strmovi
  aw

/-- Translation of `New` (src/mjpeg.go:74): writes the fixed AVI header, as the sequence of
the seven stages above interleaved with the three `finalizeLengthField`
calls and the two error checks of the source.  `nowStr` models
`time.Now().Format("2006-01-02 15:04:05 MST")`; `failAt` injects a failure
into the syscall with that index (`os.Create` calls are syscalls 0 and 1).
The outer `none` models a Go runtime panic: `1000000 / fps` panics when
`fps = 0` (the check is hoisted above the header writes because the panic
discards the partial state), and an empty-stack `finalizeLengthField`
panics.  File paths are abstracted away; only existence of the two files
after return is tracked (see `NewRes`). -/
def New (width height fps : Int) (failAt : Option Nat) (nowStr : List Nat) : Option NewRes :=
  -- aw.avif, err = os.Create(aviFile); on failure return nil, err (nothing created)
  if failAt = some 0 then some ⟨none, some ioErr, false, false⟩
  else
  -- aw.idxf, err = os.Create(aw.idxFile); on failure the deferred handler
  -- closes the created avi file and removes it
  if failAt = some 1 then some ⟨none, some ioErr, false, false⟩
  else
  -- Go evaluates 1000000 / fps when reaching the frame-delay write;
  -- fps = 0 is an integer division by zero, a runtime panic
  if fps = 0 then none
  else
  let aw : AviWriter :=
    { width := width, height := height, fps := fps, file := [], pos := 0,
      err := none, lengthFields := [], framesCountFieldPos := 0,
      framesCountFieldPos2 := 0, moviPos := 0, frames := 0, idxFile := [],
      idxPos := 0, idxRecords := [], failAt := failAt, opCount := 2 }
  let aw := newStage1 fps aw
  let aw := newStage2 width height aw
  let aw := newStage3 fps aw
  let aw := newStage4 aw
  let aw := newStage5 width height aw
  (finalizeLengthField aw).bind fun aw =>    -- strf chunk finished (level 3)
  if aw.err.isSome then some ⟨none, aw.err, false, false⟩ -- deferred cleanup removes both files
  else
  let aw := newStage6 nowStr aw
  (finalizeLengthField aw).bind fun aw =>    -- LIST strl finished (level 2)
  (finalizeLengthField aw).bind fun aw =>    -- LIST hdrl finished (level 1)
  let aw := newStage7 aw
  if aw.err.isSome then some ⟨none, aw.err, false, false⟩ -- deferred cleanup removes both files
  else some ⟨some aw, none, true, true⟩

/-! ## Frame append and finalize (TODO stubs in the source, modelled from the spec) -/

/-- Modelled from the spec: `AddJpeg` is a TODO stub in this revision of
src/mjpeg.go (line 294), so `add_frame` is taken from spec section 4.3:
sticky-error guard; compute the entry offset relative to the data-section
payload start (`moviPos + 4`, just after the "movi" signature); write the
frame chunk (tag "00dc", open length field, the raw bytes, close length
field — the close uses the source's `finalizeLengthField`); append one
IndexRecord (tag, keyframe flag 0x10, relative offset, payload size);
increment the frame count. -/
def AddJpeg (aw : AviWriter) (data : List Nat) : Option AviWriter :=
  if aw.err.isSome then some aw
  else
    let (framePos, aw) := currentPos aw
    let aw := writeStr aw str00dc
    let aw := writeLengthField aw
    let aw := writeStr aw data
    (finalizeLengthField aw).bind fun aw =>
      let r : IndexRec :=
        { tag := str00dc, flags := 16,
          offset := (framePos : Int) - ((aw.moviPos : Int) + 4), size := data.length }
      some { aw with idxRecords := aw.idxRecords ++ [r], frames := aw.frames + 1 }

/-- Modelled from the spec: the IndexBuilder's `serialize` (spec section
4.2): a flat little-endian sequence of (tag, flags, offset, size) tuples in
insertion order. -/
def serializeIdx (rs : List IndexRec) : List Nat :=
  (rs.map fun r => r.tag ++ le32n r.flags ++ le32i r.offset ++ le32i (r.size : Int)).flatten

/-- Modelled from the spec: `Close` is a TODO stub in this revision of
src/mjpeg.go (line 306: it only closes the descriptors and removes the
index file), so `finalize` is taken from spec section 4.3: close the
data-section list field; write the index as a top-level "idx1" chunk sized
by its own open/close length-field pair; close the overall file-length
field; seek to the two remembered frame-count positions and overwrite both
with the final frame count. -/
def Close (aw : AviWriter) : Option AviWriter :=
  (finalizeLengthField aw).bind fun aw =>    -- close the data-section list
  let aw := writeStr aw stridx1
  let aw := writeLengthField aw
  let aw := writeStr aw (serializeIdx aw.idxRecords)
  (finalizeLengthField aw).bind fun aw =>    -- close the idx1 chunk
  (finalizeLengthField aw).bind fun aw =>    -- close the overall file length
  let aw := rawSeek aw aw.framesCountFieldPos
  let aw := writeInt32 aw (wrap32 (aw.frames : Int))
  let aw := rawSeek aw aw.framesCountFieldPos2
  let aw := writeInt32 aw (wrap32 (aw.frames : Int))
  some aw

/-- Run a list of `AddJpeg` calls in order. -/
def addFrames (aw : AviWriter) : List (List Nat) → Option AviWriter
  | [] => some aw
  | d :: ds => (AddJpeg aw d).bind fun aw2 => addFrames aw2 ds

/-- The writer produced by a fault-free successful `New` (and `default`
where `New` does not succeed, which the theorems rule out separately). -/
def theNew (w h fps : Int) (nowStr : List Nat) : AviWriter :=
  (((New w h fps none nowStr).bind NewRes.result).getD default)

/-- Whether a fault-free `New` returns a writer successfully. -/
def newOk (w h fps : Int) (nowStr : List Nat) : Bool :=
  ((New w h fps none nowStr).bind NewRes.result).isSome

/-- Full run: construction, `frames` appended, then finalize. -/
def runMovie (w h fps : Int) (nowStr : List Nat) (fd : List (List Nat)) : Option AviWriter :=
  match New w h fps none nowStr with
  | none => none
  | some nr =>
    match nr.result with
    | none => none
    | some aw =>
      match addFrames aw fd with
      | none => none
      | some aw2 => Close aw2

/-- The invariant maintained across `AddJpeg` calls that `Close` relies on:
no recorded error, fault-free syscalls, the two frame-count positions as laid
out by `New`, and the two still-open length fields (RIFF at 4 and the data
list). -/
def Ready (aw : AviWriter) : Prop :=
  aw.err = none ∧ aw.failAt = none ∧ aw.framesCountFieldPos = 48 ∧
  aw.framesCountFieldPos2 = 140 ∧ ∃ q, aw.lengthFields = [4] ++ [q]

/-- The two frame-count fields (offsets 48 and 140) of a finished writer. -/
def frameFields (aw : AviWriter) : List Nat × List Nat :=
  (readBytes aw.file 48 4, readBytes aw.file 140 4)

/-- The avi file contents produced by a fault-free `New`, as the chronological
sequence of its writes: the header writes in order, with the three length
fields patched (at 168 the strf size field — patched with 208 = 212 - 4 by the
source's `finalizeLengthField`; at 92 and 16 the strl and hdrl list size
fields), the strn record, and the open-ended data LIST and movi signature. -/
def newFile (w h fps : Int) (nowStr : List Nat) : List Nat :=
  writeBytesAt
    (writeBytesAt
    (writeBytesAt
    (writeBytesAt
    (writeBytesAt
    (writeBytesAt
    (writeBytesAt
    (writeBytesAt
    (writeBytesAt
    (writeBytesAt
    (writeBytesAt
    (writeBytesAt
    (writeBytesAt
    (writeBytesAt
    (writeBytesAt
    (writeBytesAt
    (writeBytesAt
    (writeBytesAt
    (writeBytesAt
    (writeBytesAt
    (writeBytesAt
    (writeBytesAt
    (writeBytesAt
    (writeBytesAt
    (writeBytesAt
    (writeBytesAt
    (writeBytesAt
    (writeBytesAt
    (writeBytesAt
    (writeBytesAt
    (writeBytesAt
    (writeBytesAt
    (writeBytesAt
    (writeBytesAt
    (writeBytesAt
    (writeBytesAt
    (writeBytesAt
    (writeBytesAt
    (writeBytesAt
    (writeBytesAt
    (writeBytesAt
    (writeBytesAt
    (writeBytesAt
    (writeBytesAt
    (writeBytesAt
    (writeBytesAt
    (writeBytesAt
    (writeBytesAt
    (writeBytesAt
    (writeBytesAt
    (writeBytesAt
    (writeBytesAt
    (writeBytesAt
    (writeBytesAt
    (writeBytesAt
    (writeBytesAt
    (writeBytesAt
    (writeBytesAt
    (writeBytesAt
    (writeBytesAt
    (writeBytesAt
    (writeBytesAt
    (writeBytesAt
    (writeBytesAt
    (writeBytesAt ([] : List Nat) 0 strRIFF) 4 emptyInt) 8 strAVIsp) 12 strLIST) 16 emptyInt) 20 strhdrl) 24 stravih) 28 (le32i 56)) 32 (le32i (Int.tdiv 1000000 fps))) 36 (le32i 0)) 40 (le32i 0)) 44 (le32i 16)) 48 (le32i 0)) 52 (le32i 0)) 56 (le32i 1)) 60 (le32i 0)) 64 (le32i w)) 68 (le32i h)) 72 (le32i 0)) 76 (le32i 0)) 80 (le32i 0)) 84 (le32i 0)) 88 strLIST) 92 emptyInt) 96 strstrl) 100 strstrh) 104 (le32i 56)) 108 strvids) 112 strMJPG) 116 (le32i 0)) 120 (le32i 0)) 124 (le32i 0)) 128 (le32i 1)) 132 (le32i fps)) 136 (le32i 0)) 140 (le32i 0)) 144 (le32i 0)) 148 (le32i (-1))) 152 (le32i 0)) 156 (le16i 0)) 158 (le16i 0)) 160 (le16i 0)) 162 (le16i 0)) 164 strstrf) 168 emptyInt) 172 (le32i 40)) 176 (le32i w)) 180 (le32i h)) 184 (le16i 1)) 186 (le16i 24)) 188 strMJPG) 192 (le32i (wrap32 (w * h) * 3))) 196 (le32i 0)) 200 (le32i 0)) 204 (le32i 0)) 208 (le32i 0)) 168 (le32i 208)) 212 strstrn) 216 (le32i ((mkName nowStr).length : Int))) 220 (mkName nowStr)) 92 (le32i (((220 + (mkName nowStr).length : Nat) : Int) - 4))) 16 (le32i (((220 + (mkName nowStr).length : Nat) : Int) - 4))) (220 + (mkName nowStr).length) strLIST) (220 + (mkName nowStr).length + 4) emptyInt) (220 + (mkName nowStr).length + 4 + 4) strmovi

/-- The writer state produced by a fault-free `New`. -/
def newWriter (w h fps : Int) (nowStr : List Nat) : AviWriter where
  width := w
  height := h
  fps := fps
  file := newFile w h fps nowStr
  pos := 220 + (mkName nowStr).length + 4 + 4 + 4
  err := none
  lengthFields := [4] ++ [220 + (mkName nowStr).length + 4]
  framesCountFieldPos := 48
  framesCountFieldPos2 := 140
  moviPos := 220 + (mkName nowStr).length + 4 + 4
  frames := 0
  idxFile := []
  idxPos := 0
  idxRecords := []
  failAt := none
  opCount := 84

/-- What one successful `add_frame` does to the writer state: appends exactly
one data chunk (tag, patched length field, the raw bytes) at the end of the
file, appends exactly one index record, increments the frame count by one,
and leaves the length-field stack unchanged (the pad byte of an odd-length
payload is skipped by seeking, reflected in the final position only). -/
def addFrameEffect (aw : AviWriter) (data : List Nat) : Prop :=
  ∃ aw2, AddJpeg aw data = some aw2 ∧
    aw2.file = aw.file ++ str00dc ++ le32i ((aw.pos + 4 + data.length : Nat) : Int) ++ data ∧
    aw2.frames = aw.frames + 1 ∧
    aw2.idxRecords = aw.idxRecords ++
      [{ tag := str00dc, flags := 16,
         offset := (aw.pos : Int) - ((aw.moviPos : Int) + 4), size := data.length }] ∧
    aw2.err = none ∧
    aw2.lengthFields = aw.lengthFields ∧
    aw2.pos = aw.pos + 8 + data.length + (aw.pos + data.length) % 2

/-- A writer state at the end of a file of eight header bytes, with one open
length field at offset 4, used as the witness input for C3. -/
def smallState : AviWriter :=
  { width := 144, height := 108, fps := 2, file := [82, 73, 70, 70, 0, 0, 0, 0], pos := 8,
    err := none, lengthFields := [4], framesCountFieldPos := 0, framesCountFieldPos2 := 0,
    moviPos := 0, frames := 0, idxFile := [], idxPos := 0, idxRecords := [],
    failAt := none, opCount := 8 }

/-- A writer with a recorded error (7), eight bytes written, one open length
field at offset 4. -/
def errState : AviWriter :=
  { width := 144, height := 108, fps := 2, file := [82, 73, 70, 70, 0, 0, 0, 0], pos := 8,
    err := some 7, lengthFields := [4], framesCountFieldPos := 0, framesCountFieldPos2 := 0,
    moviPos := 0, frames := 0, idxFile := [], idxPos := 0, idxRecords := [],
    failAt := none, opCount := 9 }

/-- A writer at an odd offset 9 (= the file length), with one open length
field at offset 4. -/
def padState : AviWriter :=
  { width := 144, height := 108, fps := 2, file := [82, 73, 70, 70, 0, 0, 0, 0, 9], pos := 9,
    err := none, lengthFields := [4], framesCountFieldPos := 0, framesCountFieldPos2 := 0,
    moviPos := 0, frames := 0, idxFile := [], idxPos := 0, idxRecords := [],
    failAt := none, opCount := 9 }

/-- The writer produced by closing `padState`'s length field. -/
def padRes : AviWriter := (finalizeLengthField padState).getD default

/-- What closing a length field opened at `p` actually does about padding:
the recorded 4 bytes at `p` are computed from the unpadded close offset;
at an odd close offset the writer resumes one byte further without writing
anything, and the skipped pad position reads as zero (and is only then
physically materialized) once the next write extends the file. -/
def padBehavior (aw : AviWriter) (p : Nat) : Prop :=
  ∃ aw2, finalizeLengthField aw = some aw2 ∧
    aw2.pos = (if aw.pos % 2 = 1 then aw.pos + 1 else aw.pos) ∧
    aw2.file.length = aw.file.length ∧
    readBytes aw2.file p 4 = le32i ((aw.pos : Int) - 4) ∧
    (∀ bs, aw.pos % 2 = 1 →
      (writeStr aw2 bs).file.getD aw.pos 0 = 0 ∧
      (writeStr aw2 bs).file.length = aw.pos + 1 + bs.length)

/-! ## Lemmas about the byte-level helpers -/

theorem length_le32n (v : Nat) : (le32n v).length = 4 := rfl

theorem length_le32i (n : Int) : (le32i n).length = 4 := rfl

theorem length_le16i (n : Int) : (le16i n).length = 2 := rfl

theorem length_emptyInt : emptyInt.length = 4 := rfl

theorem wrap32_mod (n : Int) : wrap32 n % 4294967296 = n % 4294967296 := by
  unfold wrap32; omega

theorem le32i_wrap32 (n : Int) : le32i (wrap32 n) = le32i n := by
  unfold le32i; rw [wrap32_mod]

theorem le32i_natCast (n : Nat) : le32i (n : Int) = le32n (n % 4294967296) := by
  unfold le32i
  have h : ((n : Int) % 4294967296).toNat = n % 4294967296 := by omega
  rw [h]

theorem getD_writeBytesAt (f : List Nat) (p : Nat) (bs : List Nat) (j : Nat) :
    (writeBytesAt f p bs).getD j 0 =
      if p ≤ j ∧ j < p + bs.length then bs.getD (j - p) 0 else f.getD j 0 := by
  simp only [writeBytesAt, List.getD_eq_getElem?_getD]
  split
  case isTrue hle =>
    rw [List.append_assoc]
    rcases Nat.lt_or_ge j f.length with h1 | h1
    · rw [List.getElem?_append_left h1, if_neg (by omega)]
    · rw [List.getElem?_append_right h1]
      rcases Nat.lt_or_ge j p with h2 | h2
      · rw [List.getElem?_append_left (by simp; omega), if_neg (by omega)]
        rw [List.getElem?_replicate, if_pos (show j - f.length < p - f.length by omega)]
        rw [List.getElem?_eq_none h1]; rfl
      · rw [List.getElem?_append_right (by simp; omega)]
        rcases Nat.lt_or_ge j (p + bs.length) with h3 | h3
        · rw [if_pos ⟨h2, h3⟩]
          simp only [List.length_replicate]
          congr 2
          omega
        · rw [if_neg (by omega), List.getElem?_eq_none (by simp; omega),
              List.getElem?_eq_none (by omega)]
  case isFalse hlt =>
    rw [List.append_assoc]
    rcases Nat.lt_or_ge j p with h1 | h1
    · rw [List.getElem?_append_left (by simp; omega), if_neg (by omega), List.getElem?_take,
          if_pos h1]
    · rw [List.getElem?_append_right (by simp; omega)]
      have hjt : j - (List.take p f).length = j - p := by simp; omega
      rw [hjt]
      rcases Nat.lt_or_ge j (p + bs.length) with h3 | h3
      · rw [List.getElem?_append_left (by omega), if_pos ⟨h1, h3⟩]
      · rw [List.getElem?_append_right (by omega), if_neg (by omega), List.getElem?_drop]
        have he : p + bs.length + (j - p - bs.length) = j := by omega
        rw [he]

theorem length_writeBytesAt (f : List Nat) (p : Nat) (bs : List Nat) :
    (writeBytesAt f p bs).length = max f.length (p + bs.length) := by
  unfold writeBytesAt
  split <;> simp <;> try omega

theorem writeBytesAt_append (f : List Nat) (p : Nat) (bs : List Nat) (h : f.length = p) :
    writeBytesAt f p bs = f ++ bs := by
  unfold writeBytesAt
  rw [if_pos (Nat.le_of_eq h), h]
  simp

theorem writeBytesAt_middle (x y z bs : List Nat) (hy : y.length = bs.length)
    (hy0 : 0 < y.length) :
    writeBytesAt (x ++ y ++ z) x.length bs = x ++ bs ++ z := by
  unfold writeBytesAt
  have hcond : ¬((x ++ y ++ z).length ≤ x.length) := by
    simp only [List.length_append]
    omega
  rw [if_neg hcond]
  congr 1
  · rw [List.append_assoc, List.take_left' rfl]
  have hl : (x ++ y).length = x.length + bs.length := by simp [hy]
  rw [List.drop_left' hl]

theorem writeBytesAt_patch4 (x y z bs : List Nat) (hy : y.length = 4) (hbs : bs.length = 4) :
    writeBytesAt (x ++ y ++ z) x.length bs = x ++ bs ++ z :=
  writeBytesAt_middle x y z bs (by omega) (by omega)

theorem range_map_getD (bs : List Nat) :
    (List.range bs.length).map (fun k => bs.getD k 0) = bs := by
  apply List.ext_getElem
  · simp
  · intro n h1 h2
    simp [List.getD_eq_getElem?_getD, List.getElem?_eq_getElem h2]

theorem readBytes_writeBytesAt_self (f : List Nat) (p : Nat) (bs : List Nat) (n : Nat)
    (h : bs.length = n) :
    readBytes (writeBytesAt f p bs) p n = bs := by
  subst h
  unfold readBytes
  have hk : ∀ k, k ∈ List.range bs.length →
      (writeBytesAt f p bs).getD (p + k) 0 = bs.getD k 0 := by
    intro k hk
    rw [List.mem_range] at hk
    rw [getD_writeBytesAt, if_pos ⟨by omega, by omega⟩]
    congr 1
    omega
  rw [List.map_congr_left hk, range_map_getD]

theorem readBytes_writeBytesAt_disjoint (f : List Nat) (p : Nat) (bs : List Nat) (i n : Nat)
    (h : i + n ≤ p ∨ p + bs.length ≤ i) :
    readBytes (writeBytesAt f p bs) i n = readBytes f i n := by
  unfold readBytes
  apply List.map_congr_left
  intro k hk
  rw [List.mem_range] at hk
  rw [getD_writeBytesAt, if_neg (by omega)]

/-! ## Rewriting lemmas for the writer primitives (fault-free syscalls) -/

theorem currentPos_eq (aw : AviWriter) (hf : aw.failAt = none) :
    currentPos aw = (aw.pos, { aw with err := none, opCount := aw.opCount + 1 }) := by
  simp [currentPos, sysOk, hf]

theorem rawWrite_eq (aw : AviWriter) (bs : List Nat) (hf : aw.failAt = none) :
    rawWrite aw bs = { aw with
      file := writeBytesAt aw.file aw.pos bs,
      pos := aw.pos + bs.length, err := none, opCount := aw.opCount + 1 } := by
  simp [rawWrite, sysOk, hf]

theorem rawSeek_eq (aw : AviWriter) (p : Nat) (hf : aw.failAt = none) :
    rawSeek aw p = { aw with
      pos := p, err := none, opCount := aw.opCount + 1 } := by
  simp [rawSeek, sysOk, hf]

theorem writeStr_eq (aw : AviWriter) (s : List Nat) (he : aw.err = none)
    (hf : aw.failAt = none) :
    writeStr aw s = { aw with
      file := writeBytesAt aw.file aw.pos s,
      pos := aw.pos + s.length, err := none, opCount := aw.opCount + 1 } := by
  rw [writeStr, he]
  simp [rawWrite_eq aw s hf]

theorem writeInt32_eq (aw : AviWriter) (n : Int) (he : aw.err = none)
    (hf : aw.failAt = none) :
    writeInt32 aw n = { aw with
      file := writeBytesAt aw.file aw.pos (le32i n),
      pos := aw.pos + 4, err := none, opCount := aw.opCount + 1 } := by
  rw [writeInt32, he]
  simp [rawWrite_eq aw (le32i n) hf, length_le32i]

theorem writeInt16_eq (aw : AviWriter) (n : Int) (he : aw.err = none)
    (hf : aw.failAt = none) :
    writeInt16 aw n = { aw with
      file := writeBytesAt aw.file aw.pos (le16i n),
      pos := aw.pos + 2, err := none, opCount := aw.opCount + 1 } := by
  rw [writeInt16, he]
  simp [rawWrite_eq aw (le16i n) hf, length_le16i]

theorem writeIntToIdx_eq (aw : AviWriter) (n : Int) (he : aw.err = none)
    (hf : aw.failAt = none) :
    writeIntToIdx aw n = { aw with
      idxFile := writeBytesAt aw.idxFile aw.idxPos (le32i n),
      idxPos := aw.idxPos + 4, err := none, opCount := aw.opCount + 1 } := by
  rw [writeIntToIdx, he]
  simp [rawWriteIdx, sysOk, hf, length_le32i]

theorem writeLengthField_eq (aw : AviWriter) (he : aw.err = none) (hf : aw.failAt = none) :
    writeLengthField aw = { aw with
      file := writeBytesAt aw.file aw.pos emptyInt,
      pos := aw.pos + 4, err := none, lengthFields := aw.lengthFields ++ [aw.pos],
      opCount := aw.opCount + 2 } := by
  rw [writeLengthField, he]
  simp only [Option.isSome_none, Bool.false_eq_true, if_false, currentPos_eq aw hf]
  simp [rawWrite, sysOk, hf, length_emptyInt]

theorem finalizeLengthField_eq (aw : AviWriter) (hf : aw.failAt = none)
    (hne : aw.lengthFields ≠ []) :
    finalizeLengthField aw = some { aw with
      file := writeBytesAt aw.file (aw.lengthFields.getLast?.getD 0)
        (le32i (wrap32 ((aw.pos : Int) - 4))),
      pos := if aw.pos % 2 = 1 then aw.pos + 1 else aw.pos,
      err := none, lengthFields := aw.lengthFields.dropLast,
      opCount := aw.opCount + 4 } := by
  obtain ⟨p, hp⟩ : ∃ p, aw.lengthFields.getLast? = some p := by
    cases h : aw.lengthFields.getLast? with
    | none => exact absurd (List.getLast?_eq_none_iff.mp h) hne
    | some p => exact ⟨p, rfl⟩
  rw [finalizeLengthField, currentPos_eq aw hf]
  simp only [hp]
  simp [rawSeek, sysOk, hf, writeInt32, rawWrite, length_le32i]

/-! ## Stage characterizations of `New` -/

theorem length_strRIFF : strRIFF.length = 4 := rfl

theorem length_strAVIsp : strAVIsp.length = 4 := rfl

theorem length_strLIST : strLIST.length = 4 := rfl

theorem length_strhdrl : strhdrl.length = 4 := rfl

theorem length_stravih : stravih.length = 4 := rfl

theorem length_strstrl : strstrl.length = 4 := rfl

theorem length_strstrh : strstrh.length = 4 := rfl

theorem length_strvids : strvids.length = 4 := rfl

theorem length_strMJPG : strMJPG.length = 4 := rfl

theorem length_strstrf : strstrf.length = 4 := rfl

theorem length_strstrn : strstrn.length = 4 := rfl

theorem length_strmovi : strmovi.length = 4 := rfl

theorem length_str00dc : str00dc.length = 4 := rfl

theorem length_stridx1 : stridx1.length = 4 := rfl

theorem length_strAtSep : strAtSep.length = 4 := rfl

theorem append_singleton_ne_nil (l : List Nat) (a : Nat) : l ++ [a] ≠ [] := by simp

theorem mkName_length_even (nowStr : List Nat) : (mkName nowStr).length % 2 = 0 := by
  have hs : nameStem.length = 43 := rfl
  have ha : strAtSep.length = 4 := rfl
  show (if (nameStem ++ strAtSep ++ nowStr).length % 2 = 0
        then (nameStem ++ strAtSep ++ nowStr) ++ [32, 0]
        else (nameStem ++ strAtSep ++ nowStr) ++ [0]).length % 2 = 0
  by_cases h : (nameStem ++ strAtSep ++ nowStr).length % 2 = 0
  · rw [if_pos h]
    simp only [List.length_append, List.length_cons, List.length_nil] at h ⊢
    omega
  · rw [if_neg h]
    simp only [List.length_append, List.length_cons, List.length_nil] at h ⊢
    omega

theorem pad_if_even (x : Nat) (nowStr : List Nat) (hx : x % 2 = 0) :
    ((x + (mkName nowStr).length) % 2 = 1) = False := by
  have h := mkName_length_even nowStr
  simp only [eq_iff_iff, iff_false]
  omega

theorem newStage1_eq (fps : Int) (aw : AviWriter) (he : aw.err = none) (hf : aw.failAt = none) :
    newStage1 fps aw = { aw with
      file := writeBytesAt (writeBytesAt (writeBytesAt (writeBytesAt (writeBytesAt (writeBytesAt (writeBytesAt (writeBytesAt (writeBytesAt (writeBytesAt (writeBytesAt (writeBytesAt aw.file aw.pos strRIFF) (aw.pos + 4) emptyInt) (aw.pos + 4 + 4) strAVIsp) (aw.pos + 4 + 4 + 4) strLIST) (aw.pos + 4 + 4 + 4 + 4) emptyInt) (aw.pos + 4 + 4 + 4 + 4 + 4) strhdrl) (aw.pos + 4 + 4 + 4 + 4 + 4 + 4) stravih) (aw.pos + 4 + 4 + 4 + 4 + 4 + 4 + 4) (le32i 56)) (aw.pos + 4 + 4 + 4 + 4 + 4 + 4 + 4 + 4) (le32i (Int.tdiv 1000000 fps))) (aw.pos + 4 + 4 + 4 + 4 + 4 + 4 + 4 + 4 + 4) (le32i 0)) (aw.pos + 4 + 4 + 4 + 4 + 4 + 4 + 4 + 4 + 4 + 4) (le32i 0)) (aw.pos + 4 + 4 + 4 + 4 + 4 + 4 + 4 + 4 + 4 + 4 + 4) (le32i 16),
      pos := aw.pos + 4 + 4 + 4 + 4 + 4 + 4 + 4 + 4 + 4 + 4 + 4 + 4,
      err := none,
      lengthFields := (aw.lengthFields ++ [aw.pos + 4]) ++ [aw.pos + 4 + 4 + 4 + 4],
      opCount := aw.opCount + 1 + 2 + 1 + 1 + 2 + 1 + 1 + 1 + 1 + 1 + 1 + 1 } := by
  simp only [newStage1, writeStr_eq, writeInt32_eq, writeInt16_eq, writeLengthField_eq,
    currentPos_eq, he, hf, length_strRIFF, length_strAVIsp, length_strLIST, length_strhdrl, length_stravih, length_strstrl, length_strstrh, length_strvids, length_strMJPG, length_strstrf, length_strstrn, length_strmovi, length_str00dc, length_stridx1, length_strAtSep, length_emptyInt, length_le32i, length_le16i, Nat.reduceAdd]

theorem newStage2_eq (width height : Int) (aw : AviWriter) (he : aw.err = none) (hf : aw.failAt = none) :
    newStage2 width height aw = { aw with
      file := writeBytesAt (writeBytesAt (writeBytesAt (writeBytesAt (writeBytesAt (writeBytesAt (writeBytesAt (writeBytesAt (writeBytesAt (writeBytesAt aw.file aw.pos (le32i 0)) (aw.pos + 4) (le32i 0)) (aw.pos + 4 + 4) (le32i 1)) (aw.pos + 4 + 4 + 4) (le32i 0)) (aw.pos + 4 + 4 + 4 + 4) (le32i width)) (aw.pos + 4 + 4 + 4 + 4 + 4) (le32i height)) (aw.pos + 4 + 4 + 4 + 4 + 4 + 4) (le32i 0)) (aw.pos + 4 + 4 + 4 + 4 + 4 + 4 + 4) (le32i 0)) (aw.pos + 4 + 4 + 4 + 4 + 4 + 4 + 4 + 4) (le32i 0)) (aw.pos + 4 + 4 + 4 + 4 + 4 + 4 + 4 + 4 + 4) (le32i 0),
      pos := aw.pos + 4 + 4 + 4 + 4 + 4 + 4 + 4 + 4 + 4 + 4,
      err := none,
      framesCountFieldPos := aw.pos,
      opCount := aw.opCount + 1 + 1 + 1 + 1 + 1 + 1 + 1 + 1 + 1 + 1 + 1 } := by
  simp only [newStage2, writeStr_eq, writeInt32_eq, writeInt16_eq, writeLengthField_eq,
    currentPos_eq, he, hf, length_strRIFF, length_strAVIsp, length_strLIST, length_strhdrl, length_stravih, length_strstrl, length_strstrh, length_strvids, length_strMJPG, length_strstrf, length_strstrn, length_strmovi, length_str00dc, length_stridx1, length_strAtSep, length_emptyInt, length_le32i, length_le16i, Nat.reduceAdd]

theorem newStage3_eq (fps : Int) (aw : AviWriter) (he : aw.err = none) (hf : aw.failAt = none) :
    newStage3 fps aw = { aw with
      file := writeBytesAt (writeBytesAt (writeBytesAt (writeBytesAt (writeBytesAt (writeBytesAt (writeBytesAt (writeBytesAt (writeBytesAt (writeBytesAt (writeBytesAt (writeBytesAt (writeBytesAt aw.file aw.pos strLIST) (aw.pos + 4) emptyInt) (aw.pos + 4 + 4) strstrl) (aw.pos + 4 + 4 + 4) strstrh) (aw.pos + 4 + 4 + 4 + 4) (le32i 56)) (aw.pos + 4 + 4 + 4 + 4 + 4) strvids) (aw.pos + 4 + 4 + 4 + 4 + 4 + 4) strMJPG) (aw.pos + 4 + 4 + 4 + 4 + 4 + 4 + 4) (le32i 0)) (aw.pos + 4 + 4 + 4 + 4 + 4 + 4 + 4 + 4) (le32i 0)) (aw.pos + 4 + 4 + 4 + 4 + 4 + 4 + 4 + 4 + 4) (le32i 0)) (aw.pos + 4 + 4 + 4 + 4 + 4 + 4 + 4 + 4 + 4 + 4) (le32i 1)) (aw.pos + 4 + 4 + 4 + 4 + 4 + 4 + 4 + 4 + 4 + 4 + 4) (le32i fps)) (aw.pos + 4 + 4 + 4 + 4 + 4 + 4 + 4 + 4 + 4 + 4 + 4 + 4) (le32i 0),
      pos := aw.pos + 4 + 4 + 4 + 4 + 4 + 4 + 4 + 4 + 4 + 4 + 4 + 4 + 4,
      err := none,
      lengthFields := aw.lengthFields ++ [aw.pos + 4],
      opCount := aw.opCount + 1 + 2 + 1 + 1 + 1 + 1 + 1 + 1 + 1 + 1 + 1 + 1 + 1 } := by
  simp only [newStage3, writeStr_eq, writeInt32_eq, writeInt16_eq, writeLengthField_eq,
    currentPos_eq, he, hf, length_strRIFF, length_strAVIsp, length_strLIST, length_strhdrl, length_stravih, length_strstrl, length_strstrh, length_strvids, length_strMJPG, length_strstrf, length_strstrn, length_strmovi, length_str00dc, length_stridx1, length_strAtSep, length_emptyInt, length_le32i, length_le16i, Nat.reduceAdd]

theorem newStage4_eq (aw : AviWriter) (he : aw.err = none) (hf : aw.failAt = none) :
    newStage4 aw = { aw with
      file := writeBytesAt (writeBytesAt (writeBytesAt (writeBytesAt (writeBytesAt (writeBytesAt (writeBytesAt (writeBytesAt aw.file aw.pos (le32i 0)) (aw.pos + 4) (le32i 0)) (aw.pos + 4 + 4) (le32i (-1))) (aw.pos + 4 + 4 + 4) (le32i 0)) (aw.pos + 4 + 4 + 4 + 4) (le16i 0)) (aw.pos + 4 + 4 + 4 + 4 + 2) (le16i 0)) (aw.pos + 4 + 4 + 4 + 4 + 2 + 2) (le16i 0)) (aw.pos + 4 + 4 + 4 + 4 + 2 + 2 + 2) (le16i 0),
      pos := aw.pos + 4 + 4 + 4 + 4 + 2 + 2 + 2 + 2,
      err := none,
      framesCountFieldPos2 := aw.pos,
      opCount := aw.opCount + 1 + 1 + 1 + 1 + 1 + 1 + 1 + 1 + 1 } := by
  simp only [newStage4, writeStr_eq, writeInt32_eq, writeInt16_eq, writeLengthField_eq,
    currentPos_eq, he, hf, length_strRIFF, length_strAVIsp, length_strLIST, length_strhdrl, length_stravih, length_strstrl, length_strstrh, length_strvids, length_strMJPG, length_strstrf, length_strstrn, length_strmovi, length_str00dc, length_stridx1, length_strAtSep, length_emptyInt, length_le32i, length_le16i, Nat.reduceAdd]

theorem newStage5_eq (width height : Int) (aw : AviWriter) (he : aw.err = none) (hf : aw.failAt = none) :
    newStage5 width height aw = { aw with
      file := writeBytesAt (writeBytesAt (writeBytesAt (writeBytesAt (writeBytesAt (writeBytesAt (writeBytesAt (writeBytesAt (writeBytesAt (writeBytesAt (writeBytesAt (writeBytesAt (writeBytesAt aw.file aw.pos strstrf) (aw.pos + 4) emptyInt) (aw.pos + 4 + 4) (le32i 40)) (aw.pos + 4 + 4 + 4) (le32i width)) (aw.pos + 4 + 4 + 4 + 4) (le32i height)) (aw.pos + 4 + 4 + 4 + 4 + 4) (le16i 1)) (aw.pos + 4 + 4 + 4 + 4 + 4 + 2) (le16i 24)) (aw.pos + 4 + 4 + 4 + 4 + 4 + 2 + 2) strMJPG) (aw.pos + 4 + 4 + 4 + 4 + 4 + 2 + 2 + 4) (le32i (wrap32 (wrap32 (width * height) * 3)))) (aw.pos + 4 + 4 + 4 + 4 + 4 + 2 + 2 + 4 + 4) (le32i 0)) (aw.pos + 4 + 4 + 4 + 4 + 4 + 2 + 2 + 4 + 4 + 4) (le32i 0)) (aw.pos + 4 + 4 + 4 + 4 + 4 + 2 + 2 + 4 + 4 + 4 + 4) (le32i 0)) (aw.pos + 4 + 4 + 4 + 4 + 4 + 2 + 2 + 4 + 4 + 4 + 4 + 4) (le32i 0),
      pos := aw.pos + 4 + 4 + 4 + 4 + 4 + 2 + 2 + 4 + 4 + 4 + 4 + 4 + 4,
      err := none,
      lengthFields := aw.lengthFields ++ [aw.pos + 4],
      opCount := aw.opCount + 1 + 2 + 1 + 1 + 1 + 1 + 1 + 1 + 1 + 1 + 1 + 1 + 1 } := by
  simp only [newStage5, writeStr_eq, writeInt32_eq, writeInt16_eq, writeLengthField_eq,
    currentPos_eq, he, hf, length_strRIFF, length_strAVIsp, length_strLIST, length_strhdrl, length_stravih, length_strstrl, length_strstrh, length_strvids, length_strMJPG, length_strstrf, length_strstrn, length_strmovi, length_str00dc, length_stridx1, length_strAtSep, length_emptyInt, length_le32i, length_le16i, Nat.reduceAdd]

theorem newStage6_eq (nowStr : List Nat) (aw : AviWriter) (he : aw.err = none)
    (hf : aw.failAt = none) :
    newStage6 nowStr aw = { aw with
      file := writeBytesAt (writeBytesAt (writeBytesAt aw.file aw.pos strstrn)
        (aw.pos + 4) (le32i (wrap32 ((mkName nowStr).length : Int))))
        (aw.pos + 4 + 4) (mkName nowStr),
      pos := aw.pos + 4 + 4 + (mkName nowStr).length,
      err := none,
      opCount := aw.opCount + 1 + 1 + 1 } := by
  simp only [newStage6, writeStr_eq, writeInt32_eq, he, hf, length_strRIFF, length_strAVIsp, length_strLIST, length_strhdrl, length_stravih, length_strstrl, length_strstrh, length_strvids, length_strMJPG, length_strstrf, length_strstrn, length_strmovi, length_str00dc, length_stridx1, length_strAtSep, length_emptyInt, length_le32i, length_le16i, Nat.reduceAdd]

theorem newStage7_eq (aw : AviWriter) (he : aw.err = none) (hf : aw.failAt = none) :
    newStage7 aw = { aw with
      file := writeBytesAt (writeBytesAt (writeBytesAt aw.file aw.pos strLIST)
        (aw.pos + 4) emptyInt) (aw.pos + 4 + 4) strmovi,
      pos := aw.pos + 4 + 4 + 4,
      err := none,
      lengthFields := aw.lengthFields ++ [aw.pos + 4],
      moviPos := aw.pos + 4 + 4,
      opCount := aw.opCount + 1 + 2 + 1 + 1 } := by
  simp only [newStage7, writeStr_eq, writeLengthField_eq, currentPos_eq, he, hf, length_strRIFF, length_strAVIsp, length_strLIST, length_strhdrl, length_stravih, length_strstrl, length_strstrh, length_strvids, length_strMJPG, length_strstrf, length_strstrn, length_strmovi, length_str00dc, length_stridx1, length_strAtSep, length_emptyInt, length_le32i, length_le16i, Nat.reduceAdd]

section SymbolicExec

attribute [local irreducible] writeBytesAt le32n le16n le32i le16i wrap32 mkName serializeIdx

set_option maxHeartbeats 2000000 in
/-- Characterization of a fault-free `New`: it succeeds and returns exactly
`newWriter`, with both created files kept. -/
theorem new_eq (w h fps : Int) (nowStr : List Nat) (hf : fps ≠ 0) :
    New w h fps none nowStr =
      some ⟨some (newWriter w h fps nowStr), none, true, true⟩ := by
  unfold New
  rw [if_neg hf]
  simp only [reduceCtorEq, reduceIte, if_false]
  simp only [newStage1_eq, List.nil_append, Nat.reduceAdd]
  simp only [newStage2_eq, Nat.reduceAdd]
  simp only [newStage3_eq, Nat.reduceAdd]
  simp only [newStage4_eq, Nat.reduceAdd]
  simp only [newStage5_eq, Nat.reduceAdd]
  simp only [finalizeLengthField_eq, append_singleton_ne_nil, ne_eq, not_false_eq_true,
    List.getLast?_concat, List.dropLast_concat, Option.getD_some, Option.some_bind,
    Nat.reduceAdd, Nat.reduceMod, Nat.reduceEqDiff, reduceIte, Nat.cast_ofNat,
    Int.reduceSub, le32i_wrap32, Option.isSome_none, Bool.false_eq_true, if_false]
  simp only [newStage6_eq, Nat.reduceAdd]
  simp only [finalizeLengthField_eq, append_singleton_ne_nil, ne_eq, not_false_eq_true,
    List.getLast?_concat, List.dropLast_concat, Option.getD_some, Option.some_bind,
    pad_if_even, Nat.reduceMod, Nat.reduceEqDiff, reduceIte, Nat.reduceAdd, le32i_wrap32,
    Option.isSome_none, Bool.false_eq_true, if_false]
  simp only [newStage7_eq, Nat.reduceAdd]
  simp only [newWriter, newFile, Option.isSome_none, Bool.false_eq_true, if_false, reduceIte]


/-- Characterization of a fault-free `AddJpeg` on an error-free writer. -/
theorem addJpeg_eq (aw : AviWriter) (data : List Nat) (he : aw.err = none)
    (hf : aw.failAt = none) :
    AddJpeg aw data = some { aw with
      file := writeBytesAt (writeBytesAt (writeBytesAt (writeBytesAt aw.file aw.pos str00dc)
        (aw.pos + 4) emptyInt) (aw.pos + 4 + 4) data) (aw.pos + 4)
        (le32i (((aw.pos + 4 + 4 + data.length : Nat) : Int) - 4)),
      pos := if (aw.pos + 4 + 4 + data.length) % 2 = 1 then aw.pos + 4 + 4 + data.length + 1
             else aw.pos + 4 + 4 + data.length,
      err := none,
      idxRecords := aw.idxRecords ++
        [{ tag := str00dc, flags := 16,
           offset := (aw.pos : Int) - ((aw.moviPos : Int) + 4), size := data.length }],
      frames := aw.frames + 1,
      opCount := aw.opCount + 1 + 1 + 2 + 1 + 4 } := by
  simp only [AddJpeg, writeStr_eq, writeLengthField_eq, finalizeLengthField_eq,
    currentPos_eq, he, hf, length_str00dc, length_emptyInt, Option.some_bind,
    append_singleton_ne_nil, ne_eq, not_false_eq_true, List.getLast?_concat,
    List.dropLast_concat, Option.getD_some, Option.isSome_none, Bool.false_eq_true,
    if_false, le32i_wrap32, Nat.reduceAdd]

theorem newWriter_ready (w h fps : Int) (nowStr : List Nat) :
    Ready (newWriter w h fps nowStr) ∧ (newWriter w h fps nowStr).frames = 0 := by
  refine ⟨⟨rfl, rfl, rfl, rfl, ⟨_, rfl⟩⟩, rfl⟩

theorem addJpeg_ready (aw : AviWriter) (data : List Nat) (hr : Ready aw) :
    ∃ aw2, AddJpeg aw data = some aw2 ∧ Ready aw2 ∧ aw2.frames = aw.frames + 1 := by
  obtain ⟨he, hf, hA, hB, q, hq⟩ := hr
  refine ⟨_, addJpeg_eq aw data he hf, ⟨rfl, hf, hA, hB, q, hq⟩, rfl⟩

theorem addFrames_ready (fd : List (List Nat)) (aw : AviWriter) (hr : Ready aw) :
    ∃ aw2, addFrames aw fd = some aw2 ∧ Ready aw2 ∧ aw2.frames = aw.frames + fd.length := by
  induction fd generalizing aw with
  | nil => exact ⟨aw, rfl, hr, by simp⟩
  | cons d ds ih =>
    obtain ⟨aw1, h1, hr1, hc1⟩ := addJpeg_ready aw d hr
    obtain ⟨aw2, h2, hr2, hc2⟩ := ih aw1 hr1
    refine ⟨aw2, ?_, hr2, by simp only [List.length_cons]; omega⟩
    simp only [addFrames, h1, Option.some_bind, h2]

/-- After `Close` (the spec-modelled finalize) on a `Ready` writer, both
frame-count fields hold the frame count, and the stack is empty. -/
theorem close_spec (aw : AviWriter) (hr : Ready aw) :
    ∃ awf, Close aw = some awf ∧
      readBytes awf.file 48 4 = le32n (aw.frames % 4294967296) ∧
      readBytes awf.file 140 4 = le32n (aw.frames % 4294967296) ∧
      awf.lengthFields = [] := by
  obtain ⟨he, hf, hA, hB, q, hq⟩ := hr
  simp only [Close, writeStr_eq, writeLengthField_eq, finalizeLengthField_eq, rawSeek_eq,
    writeInt32_eq, currentPos_eq, he, hf, hA, hB, hq, length_stridx1, length_emptyInt,
    Option.some_bind, append_singleton_ne_nil, ne_eq, not_false_eq_true,
    List.getLast?_concat, List.dropLast_concat, List.getLast?_singleton,
    List.dropLast_single, List.cons_ne_nil, Option.getD_some, Option.isSome_none,
    Bool.false_eq_true, if_false, le32i_wrap32, Nat.reduceAdd, reduceCtorEq, reduceIte]
  refine ⟨_, rfl, ?_, ?_, rfl⟩
  · rw [readBytes_writeBytesAt_disjoint _ _ _ _ _ (by simp [length_le32i]),
        readBytes_writeBytesAt_self _ _ _ _ (by simp [length_le32i]), le32i_natCast]
  · rw [readBytes_writeBytesAt_self _ _ _ _ (by simp [length_le32i]), le32i_natCast]

/-- C2: for all valid dimensions and rate and any list of frames, after the
frames are appended and the writer is finalized, both remembered frame-count
fields (A = offset 48 in avih, B = offset 140 in strh) hold the number of
frames. -/
theorem c2_frame_counts (w h fps : Int) (nowStr : List Nat) (fd : List (List Nat))
    (hf : fps ≠ 0) (hn : fd.length < 4294967296) :
    (runMovie w h fps nowStr fd).map frameFields =
      some (le32n fd.length, le32n fd.length) := by
  obtain ⟨hr0, hc0⟩ := newWriter_ready w h fps nowStr
  obtain ⟨aw2, h2, hr2, hc2⟩ := addFrames_ready fd (newWriter w h fps nowStr) hr0
  obtain ⟨awf, h3, hr48, hr140, _⟩ := close_spec aw2 hr2
  have hrun : runMovie w h fps nowStr fd = some awf := by
    simp only [runMovie, new_eq w h fps nowStr hf, Option.some_bind, Option.getD_some, h2, h3]
  have hmod : (aw2.frames % 4294967296) = fd.length := by
    rw [hc2, hc0]
    omega
  rw [hrun]
  show some (frameFields awf) = some (le32n fd.length, le32n fd.length)
  rw [frameFields, hr48, hr140, hmod]


theorem theNew_eq (w h fps : Int) (nowStr : List Nat) (hf : fps ≠ 0) :
    theNew w h fps nowStr = newWriter w h fps nowStr := by
  simp only [theNew, new_eq w h fps nowStr hf, Option.some_bind, Option.getD_some]

theorem wrap32_mul_emod (a b : Int) : wrap32 a * b % 4294967296 = a * b % 4294967296 := by
  conv_lhs => rw [Int.mul_emod, wrap32_mod, ← Int.mul_emod]

theorem le32i_wrap32_mul (a b : Int) : le32i (wrap32 a * b) = le32i (a * b) := by
  unfold le32i
  rw [wrap32_mul_emod]

/-- The strf length field (offset 168, closed at offset 212) of every header
written by `New` holds 208 = 212 - 4, the value computed by the source's
`finalizeLengthField`, not the strf chunk size 40 = 212 - 168 - 4. -/
theorem strf_field_value (w h fps : Int) (nowStr : List Nat) (hf : fps ≠ 0) :
    readBytes (theNew w h fps nowStr).file 168 4 = le32i 208 := by
  rw [theNew_eq w h fps nowStr hf]
  show readBytes (newFile w h fps nowStr) 168 4 = le32i 208
  simp only [newFile]
  rw [readBytes_writeBytesAt_disjoint, readBytes_writeBytesAt_disjoint,
      readBytes_writeBytesAt_disjoint, readBytes_writeBytesAt_disjoint,
      readBytes_writeBytesAt_disjoint, readBytes_writeBytesAt_disjoint,
      readBytes_writeBytesAt_disjoint, readBytes_writeBytesAt_disjoint,
      readBytes_writeBytesAt_self _ _ _ _ (by rw [length_le32i])]
  all_goals try simp only [length_le32i, length_strLIST, length_strstrn, length_strmovi,
    length_emptyInt]
  all_goals omega

/-- C10 core: the biSizeImage field at offset 192 stores `width*height*3`
computed in wrapping `int32` arithmetic and serialized modulo 2^32. -/
theorem biSizeImage_value (w h fps : Int) (nowStr : List Nat) (hf : fps ≠ 0) :
    readBytes (theNew w h fps nowStr).file 192 4 = le32n ((w * h * 3 % 4294967296).toNat) := by
  rw [theNew_eq w h fps nowStr hf]
  show readBytes (newFile w h fps nowStr) 192 4 = le32n ((w * h * 3 % 4294967296).toNat)
  simp only [newFile]
  rw [readBytes_writeBytesAt_disjoint, readBytes_writeBytesAt_disjoint,
      readBytes_writeBytesAt_disjoint, readBytes_writeBytesAt_disjoint,
      readBytes_writeBytesAt_disjoint, readBytes_writeBytesAt_disjoint,
      readBytes_writeBytesAt_disjoint, readBytes_writeBytesAt_disjoint,
      readBytes_writeBytesAt_disjoint, readBytes_writeBytesAt_disjoint,
      readBytes_writeBytesAt_disjoint, readBytes_writeBytesAt_disjoint,
      readBytes_writeBytesAt_disjoint,
      readBytes_writeBytesAt_self _ _ _ _ (by rw [length_le32i]),
      le32i_wrap32_mul]
  · rw [le32i]
  all_goals try simp only [length_le32i, length_strLIST, length_strstrn, length_strmovi,
    length_emptyInt]
  all_goals omega

/-- The strn record as written in the header: at 216 its length field, at
220 the zero-terminated, even-length name itself. -/
theorem strn_record_bytes (w h fps : Int) (nowStr : List Nat) (hf : fps ≠ 0) :
    readBytes (theNew w h fps nowStr).file 216 4 = le32i ((mkName nowStr).length : Int) ∧
    readBytes (theNew w h fps nowStr).file 220 (mkName nowStr).length = mkName nowStr := by
  rw [theNew_eq w h fps nowStr hf]
  constructor
  · show readBytes (newFile w h fps nowStr) 216 4 = le32i ((mkName nowStr).length : Int)
    simp only [newFile]
    rw [readBytes_writeBytesAt_disjoint, readBytes_writeBytesAt_disjoint,
        readBytes_writeBytesAt_disjoint, readBytes_writeBytesAt_disjoint,
        readBytes_writeBytesAt_disjoint, readBytes_writeBytesAt_disjoint,
        readBytes_writeBytesAt_self _ _ _ _ (by rw [length_le32i])]
    all_goals try simp only [length_le32i, length_strLIST, length_strstrn, length_strmovi,
      length_emptyInt]
    all_goals omega
  · show readBytes (newFile w h fps nowStr) 220 (mkName nowStr).length = mkName nowStr
    simp only [newFile]
    rw [readBytes_writeBytesAt_disjoint, readBytes_writeBytesAt_disjoint,
        readBytes_writeBytesAt_disjoint, readBytes_writeBytesAt_disjoint,
        readBytes_writeBytesAt_disjoint,
        readBytes_writeBytesAt_self _ _ _ _ rfl]
    all_goals try simp only [length_le32i, length_strLIST, length_strstrn, length_strmovi,
      length_emptyInt]
    all_goals omega

end SymbolicExec


/-! ## Structural facts about the stream name -/

theorem mkName_even_case (nowStr : List Nat)
    (h : (nameStem ++ strAtSep ++ nowStr).length % 2 = 0) :
    mkName nowStr = (nameStem ++ strAtSep ++ nowStr) ++ [32, 0] := by
  simp only [mkName]
  rw [if_pos h]

theorem mkName_odd_case (nowStr : List Nat)
    (h : (nameStem ++ strAtSep ++ nowStr).length % 2 ≠ 0) :
    mkName nowStr = (nameStem ++ strAtSep ++ nowStr) ++ [0] := by
  simp only [mkName]
  rw [if_neg h]

theorem mkName_zero_terminated (nowStr : List Nat) : (mkName nowStr).getLast? = some 0 := by
  simp only [mkName]
  split <;> simp

/-! ## Claim theorems (with their concrete counterexamples and witnesses) -/

/-- C1: in this source revision `finalizeLengthField` records `pos - 4`
(the close offset minus 4) instead of `pos - p - 4`: the strf length field,
opened at offset 168 and closed at offset 212, is patched with 208 in every
header `New` writes, where the chunk size mandated by the spec (and by the
in-source comments) is 212 - 168 - 4 = 40. -/
theorem c1_strf_field_bug (w h fps : Int) (nowStr : List Nat) (hf : fps ≠ 0) :
    readBytes (theNew w h fps nowStr).file 168 4 = le32i 208 ∧
    le32i 208 = [208, 0, 0, 0] ∧
    212 - 168 - 4 = 40 ∧
    le32i 208 ≠ le32i 40 :=
  ⟨strf_field_value w h fps nowStr hf, rfl, rfl, by decide⟩

theorem c1_strf_field_bug_witness :
    (2 : Int) ≠ 0 ∧
    (readBytes (theNew 144 108 2 nowStrC).file 168 4 = le32i 208 ∧
     le32i 208 = [208, 0, 0, 0] ∧
     212 - 168 - 4 = 40 ∧
     le32i 208 ≠ le32i 40) :=
  ⟨by decide, c1_strf_field_bug 144 108 2 nowStrC (by decide)⟩

theorem c2_frame_counts_witness :
    (2 : Int) ≠ 0 ∧ ([[9, 9, 9], [8, 8]] : List (List Nat)).length < 4294967296 ∧
    (runMovie 144 108 2 nowStrC [[9, 9, 9], [8, 8]]).map frameFields =
      some (le32n 2, le32n 2) :=
  ⟨by decide, by decide, c2_frame_counts 144 108 2 nowStrC [[9, 9, 9], [8, 8]] (by decide) (by decide)⟩

/-- C3: every successful `AddJpeg` on an error-free writer positioned at the
end of the file writes exactly one data chunk, appends exactly one index
record, and increments the frame count by one. -/
theorem c3_addJpeg_one_chunk (aw : AviWriter) (data : List Nat) (he : aw.err = none)
    (hfa : aw.failAt = none) (hpos : aw.pos = aw.file.length) :
    addFrameEffect aw data := by
  rw [addFrameEffect, addJpeg_eq aw data he hfa]
  refine ⟨_, rfl, ?_, rfl, rfl, rfl, rfl, ?_⟩
  · show writeBytesAt (writeBytesAt (writeBytesAt (writeBytesAt aw.file aw.pos str00dc)
        (aw.pos + 4) emptyInt) (aw.pos + 4 + 4) data) (aw.pos + 4)
        (le32i (((aw.pos + 4 + 4 + data.length : Nat) : Int) - 4)) =
      aw.file ++ str00dc ++ le32i ((aw.pos + 4 + data.length : Nat) : Int) ++ data
    rw [hpos]
    rw [writeBytesAt_append _ _ _ rfl]
    rw [writeBytesAt_append _ _ _ (show (aw.file ++ str00dc).length = aw.file.length + 4 by
      simp only [List.length_append, length_str00dc])]
    rw [writeBytesAt_append _ _ _ (show (aw.file ++ str00dc ++ emptyInt).length
        = aw.file.length + 4 + 4 by
      simp only [List.length_append, length_str00dc, length_emptyInt])]
    rw [show aw.file.length + 4 = (aw.file ++ str00dc).length by
      simp only [List.length_append, length_str00dc]]
    rw [writeBytesAt_patch4 _ _ _ _ (by rw [length_emptyInt]) (by rw [length_le32i])]
    have hv : ((((aw.file ++ str00dc).length + 4 + data.length : Nat) : Int) - 4)
        = (((aw.file ++ str00dc).length + data.length : Nat) : Int) := by
      push_cast
      omega
    rw [hv]
  · show (if (aw.pos + 4 + 4 + data.length) % 2 = 1 then aw.pos + 4 + 4 + data.length + 1
          else aw.pos + 4 + 4 + data.length) =
      aw.pos + 8 + data.length + (aw.pos + data.length) % 2
    by_cases hpar : (aw.pos + 4 + 4 + data.length) % 2 = 1
    · rw [if_pos hpar]
      omega
    · rw [if_neg hpar]
      omega

theorem c3_addJpeg_one_chunk_witness :
    smallState.err = none ∧ smallState.failAt = none ∧
    smallState.pos = smallState.file.length ∧
    addFrameEffect smallState [9, 9, 9] :=
  ⟨rfl, rfl, rfl, c3_addJpeg_one_chunk smallState [9, 9, 9] rfl rfl rfl⟩


/-- C4 counterexample: with error 7 recorded, `currentPos` still performs its
seek and overwrites the recorded error with the seek's nil result, and
`finalizeLengthField` is not a no-op: it pops the stack and patches the file.
This refutes "every subsequent write/open/close/offset operation is a no-op
that leaves the recorded error unchanged". -/
theorem c4_error_overwritten_cex :
    errState.err = some 7 ∧
    ((currentPos errState).2).err = none ∧
    finalizeLengthField errState ≠ some errState ∧
    (finalizeLengthField errState).map AviWriter.lengthFields = some [] := by
  decide

/-- C4 amended: after an error is recorded, the five guarded write operations
are no-ops preserving the error, but `currentPos` (and therefore
`finalizeLengthField`, which calls it) performs its seek unconditionally and
overwrites the recorded error with the new seek's result. -/
theorem c4_sticky_amended (aw : AviWriter) (e : Nat) (s : List Nat) (n m k : Int)
    (he : aw.err = some e) :
    writeStr aw s = aw ∧ writeInt32 aw n = aw ∧ writeInt16 aw m = aw ∧
    writeIntToIdx aw k = aw ∧ writeLengthField aw = aw ∧
    (aw.failAt = none →
      (currentPos aw).1 = aw.pos ∧
      (currentPos aw).2 = { aw with err := none, opCount := aw.opCount + 1 }) := by
  refine ⟨?_, ?_, ?_, ?_, ?_, fun hfa => ⟨?_, ?_⟩⟩
  · simp [writeStr, he]
  · simp [writeInt32, he]
  · simp [writeInt16, he]
  · simp [writeIntToIdx, he]
  · simp [writeLengthField, he]
  · simp [currentPos, sysOk, hfa]
  · simp [currentPos, sysOk, hfa]

theorem c4_sticky_amended_witness :
    errState.err = some 7 ∧
    (writeStr errState [1] = errState ∧ writeInt32 errState 5 = errState ∧
     writeInt16 errState 5 = errState ∧ writeIntToIdx errState 5 = errState ∧
     writeLengthField errState = errState ∧
     (errState.failAt = none →
       (currentPos errState).1 = errState.pos ∧
       (currentPos errState).2 = { errState with
                                   err := none, opCount := errState.opCount + 1 })) :=
  ⟨rfl, c4_sticky_amended errState 7 [1] 5 5 5 rfl⟩

/-- C5 counterexample: closing a length field at odd offset 9 resumes writing
at offset 10 but writes nothing at offset 9 — the file still has 9 bytes, so
no pad byte was written by the close (the source only seeks past the pad
position). -/
theorem c5_no_pad_byte_cex :
    (finalizeLengthField padState).isSome = true ∧
    padRes.pos = 10 ∧
    padRes.file.length = 9 := by
  decide

/-- C5 amended: see `padBehavior`. -/
theorem c5_padding_amended (aw : AviWriter) (p : Nat) (s : List Nat) (he : aw.err = none)
    (hfa : aw.failAt = none) (hst : aw.lengthFields = s ++ [p])
    (hp : p + 4 ≤ aw.file.length) (hend : aw.pos = aw.file.length) :
    padBehavior aw p := by
  have hne : aw.lengthFields ≠ [] := by
    rw [hst]
    exact append_singleton_ne_nil s p
  have hgl : aw.lengthFields.getLast?.getD 0 = p := by
    rw [hst, List.getLast?_concat]
    rfl
  rw [padBehavior, finalizeLengthField_eq aw hfa hne, hgl]
  have hfl : (writeBytesAt aw.file p (le32i (wrap32 ((aw.pos : Int) - 4)))).length
      = aw.file.length := by
    rw [length_writeBytesAt, length_le32i]
    omega
  refine ⟨_, rfl, rfl, ?_, ?_, ?_⟩
  · exact hfl
  · show readBytes (writeBytesAt aw.file p (le32i (wrap32 ((aw.pos : Int) - 4)))) p 4
        = le32i ((aw.pos : Int) - 4)
    rw [le32i_wrap32, readBytes_writeBytesAt_self _ _ _ _ (by rw [length_le32i])]
  · intro bs hodd
    rw [writeStr_eq _ bs rfl (by exact hfa)]
    dsimp only
    rw [if_pos hodd]
    constructor
    · rw [getD_writeBytesAt, if_neg (by omega),
          List.getD_eq_default _ _ (by rw [hfl]; omega)]
    · rw [length_writeBytesAt, hfl]
      omega

theorem c5_padding_amended_witness :
    padState.err = none ∧ padState.failAt = none ∧
    padState.lengthFields = [] ++ [4] ∧ 4 + 4 ≤ padState.file.length ∧
    padState.pos = padState.file.length ∧
    padBehavior padState 4 :=
  ⟨rfl, rfl, rfl, by decide, rfl,
   c5_padding_amended padState 4 [] rfl rfl rfl (by decide) rfl⟩

/-- C6 counterexample: after a successful construction the length-field stack
holds TWO pending entries — the RIFF file-length field at offset 4 and the
data-section list field at offset 296 — not one. -/
theorem c6_two_open_fields_cex :
    newOk 144 108 2 nowStrC = true ∧
    (theNew 144 108 2 nowStrC).lengthFields = [4, 296] ∧
    (theNew 144 108 2 nowStrC).lengthFields.length ≠ 1 := by
  refine ⟨rfl, rfl, by decide⟩

/-- C6 amended: after a successful construction the stack holds exactly the
two entries 4 (RIFF file length) and moviPos - 4 (the data-section list
field); the frame count is 0; after the spec-modelled finalize the stack is
empty. -/
theorem c6_stack_amended (w h fps : Int) (nowStr : List Nat) (hf : fps ≠ 0) :
    newOk w h fps nowStr = true ∧
    (theNew w h fps nowStr).lengthFields = [4, (theNew w h fps nowStr).moviPos - 4] ∧
    (theNew w h fps nowStr).frames = 0 ∧
    (Close (theNew w h fps nowStr)).map AviWriter.lengthFields = some [] := by
  have hok : newOk w h fps nowStr = true := by
    simp only [newOk, new_eq w h fps nowStr hf, Option.some_bind]
    rfl
  rw [theNew_eq w h fps nowStr hf]
  refine ⟨hok, ?_, rfl, ?_⟩
  · show [4] ++ [220 + (mkName nowStr).length + 4]
        = [4, 220 + (mkName nowStr).length + 4 + 4 - 4]
    have h4 : 220 + (mkName nowStr).length + 4 + 4 - 4
        = 220 + (mkName nowStr).length + 4 := by omega
    rw [h4, List.singleton_append]
  · obtain ⟨awf, hcl, _, _, hempty⟩ :=
      close_spec (newWriter w h fps nowStr) (newWriter_ready w h fps nowStr).1
    rw [hcl]
    show some awf.lengthFields = some []
    rw [hempty]

theorem c6_stack_amended_witness :
    (2 : Int) ≠ 0 ∧
    (newOk 144 108 2 nowStrC = true ∧
     (theNew 144 108 2 nowStrC).lengthFields = [4, (theNew 144 108 2 nowStrC).moviPos - 4] ∧
     (theNew 144 108 2 nowStrC).frames = 0 ∧
     (Close (theNew 144 108 2 nowStrC)).map AviWriter.lengthFields = some []) :=
  ⟨by decide, c6_stack_amended 144 108 2 nowStrC (by decide)⟩

/-- C7 counterexample: a negative width is accepted without any validation
error (the header is simply written with it), and fps = 0 is not rejected
with a validation error either — it is a division-by-zero runtime panic. -/
theorem c7_no_validation_cex :
    newOk (-5) 108 2 nowStrC = true ∧
    (theNew (-5) 108 2 nowStrC).err = none ∧
    New 144 108 0 none nowStrC = none :=
  ⟨rfl, rfl, rfl⟩

/-- C7 amended: `New` validates nothing: for every width and height
(positive or not) and every nonzero fps it succeeds, and fps = 0 panics
(integer division by zero) instead of returning a validation error. -/
theorem c7_no_validation_amended (w h fps : Int) (nowStr : List Nat) (hf : fps ≠ 0) :
    newOk w h fps nowStr = true ∧ (theNew w h fps nowStr).err = none ∧
    New w h 0 none nowStr = none := by
  refine ⟨?_, ?_, ?_⟩
  · simp only [newOk, new_eq w h fps nowStr hf, Option.some_bind]
    rfl
  · rw [theNew_eq w h fps nowStr hf]
    rfl
  · show New w h 0 none nowStr = none
    unfold New
    rw [if_neg (by decide), if_neg (by decide), if_pos rfl]

theorem c7_no_validation_amended_witness :
    ((-3 : Int)) ≠ 0 ∧
    (newOk (-5) 108 (-3) nowStrC = true ∧ (theNew (-5) 108 (-3) nowStrC).err = none ∧
     New (-5) 108 0 none nowStrC = none) :=
  ⟨by decide, c7_no_validation_amended (-5) 108 (-3) nowStrC (by decide)⟩

/-- C8 counterexample: when the creation of the index file (syscall 1) fails,
`New` returns the error, and the avi file that HAD been created (syscall 0
succeeded) no longer exists: the deferred handler closed and removed it.
Partial output is not left in place for the caller. -/
theorem c8_cleanup_cex :
    New 144 108 2 (some 1) nowStrC = some ⟨none, some ioErr, false, false⟩ := rfl

/-- C8 amended: when construction fails, `New` itself cleans up: failing the
last header write (syscall 83) yields an error return with both created
files closed and removed; failing the avi creation itself (syscall 0)
returns the error with nothing on disk. -/
theorem c8_cleanup_amended :
    New 144 108 2 (some 83) nowStrC = some ⟨none, some ioErr, false, false⟩ ∧
    New 144 108 2 (some 0) nowStrC = some ⟨none, some ioErr, false, false⟩ :=
  ⟨rfl, rfl⟩

/-- C9: the strn stream-name record is zero-terminated, padded with one extra
space exactly when the base name length is even, always has an even total
length, and is written in the header with its length field at offset 216
holding that length and the name bytes themselves at offset 220. -/
theorem c9_strn_record (w h fps : Int) (nowStr : List Nat) (hf : fps ≠ 0) :
    (mkName nowStr).length % 2 = 0 ∧
    (mkName nowStr).getLast? = some 0 ∧
    ((nameStem ++ strAtSep ++ nowStr).length % 2 = 0 →
      mkName nowStr = (nameStem ++ strAtSep ++ nowStr) ++ [32, 0]) ∧
    ((nameStem ++ strAtSep ++ nowStr).length % 2 ≠ 0 →
      mkName nowStr = (nameStem ++ strAtSep ++ nowStr) ++ [0]) ∧
    readBytes (theNew w h fps nowStr).file 216 4 = le32i ((mkName nowStr).length : Int) ∧
    readBytes (theNew w h fps nowStr).file 220 (mkName nowStr).length = mkName nowStr :=
  ⟨mkName_length_even nowStr, mkName_zero_terminated nowStr, mkName_even_case nowStr,
   mkName_odd_case nowStr, (strn_record_bytes w h fps nowStr hf).1,
   (strn_record_bytes w h fps nowStr hf).2⟩

theorem c9_strn_record_witness :
    (2 : Int) ≠ 0 ∧
    ((mkName nowStrC).length % 2 = 0 ∧
     (mkName nowStrC).getLast? = some 0 ∧
     ((nameStem ++ strAtSep ++ nowStrC).length % 2 = 0 →
       mkName nowStrC = (nameStem ++ strAtSep ++ nowStrC) ++ [32, 0]) ∧
     ((nameStem ++ strAtSep ++ nowStrC).length % 2 ≠ 0 →
       mkName nowStrC = (nameStem ++ strAtSep ++ nowStrC) ++ [0]) ∧
     readBytes (theNew 144 108 2 nowStrC).file 216 4 = le32i ((mkName nowStrC).length : Int) ∧
     readBytes (theNew 144 108 2 nowStrC).file 220 (mkName nowStrC).length = mkName nowStrC) :=
  ⟨by decide, c9_strn_record 144 108 2 nowStrC (by decide)⟩

/-- C10: the biSizeImage field at offset 192 stores width*height*3 computed
in wrapping signed 32-bit arithmetic and serialized modulo 2^32. -/
theorem c10_biSizeImage (w h fps : Int) (nowStr : List Nat) (hf : fps ≠ 0) :
    readBytes (theNew w h fps nowStr).file 192 4 = le32n ((w * h * 3 % 4294967296).toNat) :=
  biSizeImage_value w h fps nowStr hf

theorem c10_biSizeImage_witness :
    (2 : Int) ≠ 0 ∧
    readBytes (theNew 38000 38000 2 nowStrC).file 192 4 = le32n 37032704 ∧
    ((38000 * 38000 * 3 : Int) % 4294967296).toNat = 37032704 ∧
    (38000 * 38000 * 3 : Nat) ≠ 37032704 := by
  refine ⟨by decide, ?_, by decide, by decide⟩
  exact c10_biSizeImage 38000 38000 2 nowStrC (by decide)

end Mjpeg
